import Mathlib

/-!
Verification of the Virtual Try-On API client (`main.py`).

The client is a single linear operation `try_on`: validate the two input
image paths, base64-encode the files, build a JSON request body, POST it,
and on a 200 response decode and save each returned prediction.

We embed the operation shallowly: the filesystem is an oracle
`fileExists : String → Bool` together with `readFile : String → List Nat`
(bytes), the image library's ability to decode bytes is an oracle
`img_ok : List Nat → Bool`, and the network is represented by the single
`HttpResponse` the POST would yield.  `try_on` returns its result together
with the chronological list of side effects (the POST with its exact body,
the `makedirs` call, and each file save), so that claims about "no network
call before the check" or "no files written on error" are statable.
-/

namespace VTO

/-- The standard base64 alphabet, as used by `base64.b64encode`. -/
def b64chars : List Char :=
  "ABCDEFGHIJKLMNOPQRSTUVWXYZabcdefghijklmnopqrstuvwxyz0123456789+/".toList

/-- Character for a 6-bit group. -/
def b64char (n : Nat) : Char := b64chars.getD n '='

/-- Index of a character in the base64 alphabet. -/
def b64index (c : Char) : Nat := b64chars.indexOf c

/-- Base64 encoding of a byte list (bytes are `Nat`s below 256), exactly as
`base64.b64encode`: 3 bytes become 4 alphabet characters, a 1- or 2-byte
tail is padded with `=`. -/
def b64encode : List Nat → List Char
  | [] => []
  | [a] => [b64char (a / 4), b64char (a % 4 * 16), '=', '=']
  | [a, b] => [b64char (a / 4), b64char (a % 4 * 16 + b / 16), b64char (b % 16 * 4), '=']
  | a :: b :: c :: rest =>
      b64char (a / 4) :: b64char (a % 4 * 16 + b / 16) ::
      b64char (b % 16 * 4 + c / 64) :: b64char (c % 64) :: b64encode rest

/-- Base64 decoding (as `base64.b64decode` on well-formed input): 4 characters
become 3 bytes; trailing `=` padding yields a 1- or 2-byte tail. -/
def b64decode : List Char → List Nat
  | c1 :: c2 :: c3 :: c4 :: rest =>
      if c3 = '=' then
        [b64index c1 * 4 + b64index c2 / 16]
      else if c4 = '=' then
        [b64index c1 * 4 + b64index c2 / 16,
         b64index c2 % 16 * 16 + b64index c3 / 4]
      else
        (b64index c1 * 4 + b64index c2 / 16) ::
        (b64index c2 % 16 * 16 + b64index c3 / 4) ::
        (b64index c3 % 4 * 64 + b64index c4) :: b64decode rest
  | _ => []

/-- `encode_image` from `try_on`: read the file's bytes and base64-encode
them to text. -/
def encode_image (readFile : String → List Nat) (path : String) : String :=
  String.mk (b64encode (readFile path))

/-- Split a character list at every occurrence of `c`, as `str.split(c)`:
the result is never empty and keeps empty segments. -/
def splitOnChar (c : Char) : List Char → List (List Char)
  | [] => [[]]
  | x :: xs =>
    match splitOnChar c xs with
    | [] => [[]]
    | y :: ys =>
      if x = c then [] :: y :: ys
      else (x :: y) :: ys

/-- The `/`-separated components of a path. -/
def pathComponents (p : String) : List String :=
  (splitOnChar '/' p.toList).map String.mk

/-- Whether the path is absolute (begins with `/`). -/
def startsWithSlash (p : String) : Bool :=
  match p.toList with
  | [] => false
  | c :: _ => c = '/'

/-- The final path component, as `pathlib.Path(p).name`: empty and `.`
components are dropped. -/
def pathName (p : String) : String :=
  ((pathComponents p).filter (fun s => s != "" && s != ".")).getLastD ""

/-- Index of the last occurrence of `c`, as `str.rfind`. -/
def rfindIdx (c : Char) (cs : List Char) : Option Nat :=
  if c ∈ cs then some (cs.length - 1 - cs.reverse.indexOf c) else none

/-- `pathlib.Path(p).stem`: the final component with its extension removed;
a dot at position 0 or at the very end does not count as an extension. -/
def pathStem (p : String) : String :=
  let name := pathName p
  let cs := name.toList
  match rfindIdx '.' cs with
  | some i => if 0 < i ∧ i < cs.length - 1 then String.mk (cs.take i) else name
  | none => name

/-- `str(pathlib.Path(dir) / name)` for a relative or absolute POSIX `dir`:
empty and `.` components of `dir` are dropped and `name` is appended. -/
def pathJoin (dir name : String) : String :=
  let parts := (pathComponents dir).filter (fun s => s != "" && s != ".")
  if startsWithSlash dir then joinParts ("" :: parts ++ [name])
  else joinParts (parts ++ [name])
where
  /-- Join components with `/`. -/
  joinParts : List String → String
    | [] => ""
    | [s] => s
    | s :: rest => s ++ "/" ++ joinParts rest

/-- The `outputOptions` object of the request parameters. -/
structure OutputOptions where
  mimeType : String
  compressionQuality : Option Int
deriving DecidableEq

/-- The `parameters` object of the request body.  Optional JSON keys
(`seed`, `compressionQuality`) are `Option`s: `none` models the key being
absent from the outgoing JSON. -/
structure RequestParameters where
  sampleCount : Int
  baseSteps : Int
  addWatermark : Bool
  personGeneration : String
  safetySetting : String
  outputOptions : OutputOptions
  seed : Option Int
deriving DecidableEq

/-- The outgoing request body: the two base64 image payloads (one person
instance, a one-element product list) and the parameters object. -/
structure RequestBody where
  personImageB64 : String
  productImageB64 : String
  parameters : RequestParameters
deriving DecidableEq

/-- Python truthiness of an optional int, as tested by
`if compression_quality:` — `None` and `0` are falsy. -/
def intTruthy : Option Int → Bool
  | none => false
  | some n => n != 0

/-- Build the request body exactly as lines 93–118 of `main.py`: the fixed
keys, then `seed` only when not `None`, and `compressionQuality` only when
truthy and the output MIME type is `image/jpeg`. -/
def buildRequestBody (person_base64 product_base64 : String)
    (sample_count base_steps : Int) (add_watermark : Bool)
    (person_generation safety_setting : String) (seed : Option Int)
    (output_mime_type : String) (compression_quality : Option Int) : RequestBody :=
  { personImageB64 := person_base64
    productImageB64 := product_base64
    parameters :=
    { sampleCount := sample_count
      baseSteps := base_steps
      addWatermark := add_watermark
      personGeneration := person_generation
      safetySetting := safety_setting
      outputOptions :=
      { mimeType := output_mime_type
        compressionQuality :=
          if intTruthy compression_quality && (output_mime_type == "image/jpeg")
          then compression_quality else none }
      seed := seed } }

/-- One entry of the response's `predictions` list; `mimeType` is optional
because the code reads it with `.get`. -/
structure Prediction where
  bytesBase64Encoded : String
  mimeType : Option String
deriving DecidableEq

/-- The HTTP response: status code, raw body text, and the parsed
`predictions` list (`none` models a JSON body without a `predictions` key,
read by the code as `result.get("predictions", [])`). -/
structure HttpResponse where
  status_code : Nat
  text : String
  predictions : Option (List Prediction)
deriving DecidableEq

/-- Side effects of `try_on`, in chronological order. -/
inductive Event where
  | post (body : RequestBody)
  | makedirs (dir : String)
  | save (path : String)
deriving DecidableEq

/-- Errors raised by `try_on`. -/
inductive TryOnError where
  | fileNotFound (msg : String)
  | apiError (status : Nat) (body : String)
  | decodeError
deriving DecidableEq

instance {ε α : Type} [DecidableEq ε] [DecidableEq α] : DecidableEq (Except ε α)
  | Except.ok a, Except.ok b =>
      if h : a = b then Decidable.isTrue (by rw [h])
      else Decidable.isFalse (by intro hh; cases hh; exact h rfl)
  | Except.ok _, Except.error _ => Decidable.isFalse (by intro h; cases h)
  | Except.error _, Except.ok _ => Decidable.isFalse (by intro h; cases h)
  | Except.error a, Except.error b =>
      if h : a = b then Decidable.isTrue (by rw [h])
      else Decidable.isFalse (by intro hh; cases hh; exact h rfl)

/-- Result of a `try_on` call: the returned paths or the raised error,
together with the chronological list of side effects that occurred. -/
structure TryOnOutcome where
  result : Except TryOnError (List String)
  events : List Event
deriving DecidableEq

/-- The save loop (lines 136–149): for each prediction, base64-decode its
bytes, open them as an image (`img_ok` is the image library's verdict),
pick the extension from the reported MIME type, compose the filename from
the two input stems and the index, save, and collect the path. -/
def saveImages (img_ok : List Nat → Bool)
    (output_dir person_image_path product_image_path : String) :
    Nat → List Prediction → Except TryOnError (List String) × List Event
  | _, [] => (Except.ok [], [])
  | i, prediction :: rest =>
      let img_data := b64decode prediction.bytesBase64Encoded.toList
      if img_ok img_data then
        let ext := if prediction.mimeType == some "image/png" then ".png" else ".jpg"
        let timestamp := pathStem person_image_path ++ "_" ++ pathStem product_image_path
        let filepath := pathJoin output_dir ("vton_" ++ timestamp ++ "_" ++ toString i ++ ext)
        match saveImages img_ok output_dir person_image_path product_image_path (i + 1) rest with
        | (Except.ok paths, evs) => (Except.ok (filepath :: paths), Event.save filepath :: evs)
        | (Except.error e, evs) => (Except.error e, Event.save filepath :: evs)
      else
        (Except.error TryOnError.decodeError, [])

/-- `VirtualTryOnAPI.try_on` (lines 39–151): check both input paths exist
(raising `FileNotFoundError` naming the missing one before any other
effect), encode both images, build the request body, POST it, raise on a
non-200 status with the status and raw body text, otherwise create the
output directory and run the save loop over `predictions`. -/
def try_on (fileExists : String → Bool) (readFile : String → List Nat)
    (img_ok : List Nat → Bool) (response : HttpResponse)
    (person_image_path product_image_path output_dir : String)
    (sample_count base_steps : Int) (add_watermark : Bool)
    (person_generation safety_setting : String) (seed : Option Int)
    (output_mime_type : String) (compression_quality : Option Int) : TryOnOutcome :=
  if fileExists person_image_path = false then
    { result := Except.error (TryOnError.fileNotFound
        ("人物画像が見つかりません: " ++ person_image_path))
      events := [] }
  else if fileExists product_image_path = false then
    { result := Except.error (TryOnError.fileNotFound
        ("商品画像が見つかりません: " ++ product_image_path))
      events := [] }
  else
    let person_base64 := encode_image readFile person_image_path
    let product_base64 := encode_image readFile product_image_path
    let request_body := buildRequestBody person_base64 product_base64
      sample_count base_steps add_watermark person_generation safety_setting
      seed output_mime_type compression_quality
    if response.status_code != 200 then
      { result := Except.error (TryOnError.apiError response.status_code response.text)
        events := [Event.post request_body] }
    else
      let preds := response.predictions.getD []
      let saved := saveImages img_ok output_dir person_image_path product_image_path 0 preds
      { result := saved.1
        events := Event.post request_body :: Event.makedirs output_dir :: saved.2 }

/-- The request bodies among a list of events (those actually POSTed). -/
def postedBodies (evs : List Event) : List RequestBody :=
  evs.filterMap (fun e => match e with
    | Event.post b => some b
    | _ => none)

/-- Extension chosen for a prediction (line 142). -/
def predExt (p : Prediction) : String :=
  if p.mimeType == some "image/png" then ".png" else ".jpg"

/-- The path the `i`-th prediction is saved under (lines 142–144). -/
def predPath (output_dir person_image_path product_image_path : String)
    (i : Nat) (p : Prediction) : String :=
  pathJoin output_dir
    ("vton_" ++ (pathStem person_image_path ++ "_" ++ pathStem product_image_path)
      ++ "_" ++ toString i ++ predExt p)

/-! ### Helper lemmas -/

theorem b64index_b64char {n : Nat} (h : n < 64) : b64index (b64char n) = n := by
  have key : ∀ m : Fin 64, b64index (b64char m.val) = m.val := by decide
  exact key ⟨n, h⟩

theorem b64char_ne_pad {n : Nat} (h : n < 64) : b64char n ≠ '=' := by
  have key : ∀ m : Fin 64, b64char m.val ≠ '=' := by decide
  exact key ⟨n, h⟩

theorem b64_roundtrip : ∀ bs : List Nat, (∀ b ∈ bs, b < 256) →
    b64decode (b64encode bs) = bs
  | [], _ => rfl
  | [a], h => by
    have ha : a < 256 := h a (by simp)
    simp only [b64encode, b64decode]
    rw [if_pos trivial]
    rw [b64index_b64char (by omega), b64index_b64char (by omega)]
    simp only [List.cons.injEq, and_true]
    omega
  | [a, b], h => by
    have ha : a < 256 := h a (by simp)
    have hb : b < 256 := h b (by simp)
    simp only [b64encode, b64decode]
    rw [if_neg (b64char_ne_pad (by omega)), if_pos trivial]
    rw [b64index_b64char (by omega), b64index_b64char (by omega),
      b64index_b64char (by omega)]
    simp only [List.cons.injEq, and_true]
    omega
  | a :: b :: c :: rest, h => by
    have ha : a < 256 := h a (by simp)
    have hb : b < 256 := h b (by simp)
    have hc : c < 256 := h c (by simp)
    have ih := b64_roundtrip rest (fun x hx => h x (by simp [hx]))
    simp only [b64encode, b64decode]
    rw [if_neg (b64char_ne_pad (by omega)), if_neg (b64char_ne_pad (by omega))]
    rw [b64index_b64char (by omega), b64index_b64char (by omega),
      b64index_b64char (by omega), b64index_b64char (by omega)]
    simp only [List.cons.injEq]
    refine ⟨by omega, by omega, by omega, ih⟩


/-- The list of paths the save loop produces from index `i` on. -/
def savedPathsFrom (output_dir person_image_path product_image_path : String) :
    Nat → List Prediction → List String
  | _, [] => []
  | i, p :: rest => predPath output_dir person_image_path product_image_path i p ::
      savedPathsFrom output_dir person_image_path product_image_path (i + 1) rest

theorem savedPathsFrom_length (d p1 p2 : String) :
    ∀ i preds, (savedPathsFrom d p1 p2 i preds).length = preds.length
  | _, [] => rfl
  | i, _ :: rest => by
    simp [savedPathsFrom, savedPathsFrom_length d p1 p2 (i + 1) rest]

theorem savedPathsFrom_get (d p1 p2 : String) :
    ∀ (preds : List Prediction) (i j : Nat) (hj : j < preds.length)
      (hj' : j < (savedPathsFrom d p1 p2 i preds).length),
      (savedPathsFrom d p1 p2 i preds).get ⟨j, hj'⟩ =
        predPath d p1 p2 (i + j) (preds.get ⟨j, hj⟩)
  | p :: rest, i, 0, hj, hj' => by simp [savedPathsFrom]
  | p :: rest, i, Nat.succ j, hj, hj' => by
    have h1 : j < rest.length := by simpa using hj
    have h2 : j < (savedPathsFrom d p1 p2 (i + 1) rest).length := by
      rw [savedPathsFrom_length]; exact h1
    have ih := savedPathsFrom_get d p1 p2 rest (i + 1) j h1 h2
    have hstep : i + 1 + j = i + (j + 1) := by omega
    rw [hstep] at ih
    exact ih

theorem saveImages_ok (img_ok : List Nat → Bool) (d p1 p2 : String) :
    ∀ (preds : List Prediction),
      (∀ p ∈ preds, img_ok (b64decode p.bytesBase64Encoded.toList) = true) →
      ∀ i, saveImages img_ok d p1 p2 i preds =
        (Except.ok (savedPathsFrom d p1 p2 i preds),
         (savedPathsFrom d p1 p2 i preds).map Event.save)
  | [], _, _ => rfl
  | p :: rest, h, i => by
    have hp := h p (by simp)
    have ih := saveImages_ok img_ok d p1 p2 rest (fun q hq => h q (by simp [hq])) (i + 1)
    simp only [saveImages, hp, if_true, ih, savedPathsFrom, List.map_cons]
    simp [predPath, predExt]

theorem joinParts_suffix (name : String) :
    ∀ parts : List String, name.data <:+ (pathJoin.joinParts (parts ++ [name])).data
  | [] => List.suffix_refl _
  | [s] => ⟨(s ++ "/").data, rfl⟩
  | s :: r :: rs => by
    have ih := joinParts_suffix name (r :: rs)
    exact ih.trans ⟨(s ++ "/").data, rfl⟩

theorem pathJoin_suffix (dir name : String) : name.data <:+ (pathJoin dir name).data := by
  unfold pathJoin
  by_cases h : startsWithSlash dir
  · simp only [h, if_true]
    exact joinParts_suffix name ("" :: _)
  · simp only [h, Bool.false_eq_true, if_false]
    exact joinParts_suffix name _

theorem predExt_ne_nil (p : Prediction) : (predExt p).data ≠ [] := by
  unfold predExt
  split <;> decide

theorem predExt_suffix (d p1 p2 : String) (i : Nat) (p : Prediction) :
    (predExt p).data <:+ (predPath d p1 p2 i p).data := by
  have h1 : (predExt p).data <:+
      ("vton_" ++ (pathStem p1 ++ "_" ++ pathStem p2) ++ "_" ++ toString i
        ++ predExt p).data :=
    ⟨("vton_" ++ (pathStem p1 ++ "_" ++ pathStem p2) ++ "_" ++ toString i).data, rfl⟩
  exact h1.trans (pathJoin_suffix d _)

theorem predPath_ne_nil (d p1 p2 : String) (i : Nat) (p : Prediction) :
    (predPath d p1 p2 i p).data ≠ [] := by
  obtain ⟨t, ht⟩ := predExt_suffix d p1 p2 i p
  intro hnil
  rw [hnil] at ht
  rcases List.append_eq_nil.mp ht with ⟨-, h2⟩
  exact predExt_ne_nil p h2


theorem try_on_missing_person (fileExists : String → Bool) (readFile : String → List Nat)
    (img_ok : List Nat → Bool) (response : HttpResponse)
    (pers prod out : String) (sc bs : Int) (aw : Bool) (pg ss : String)
    (seed : Option Int) (mt : String) (cq : Option Int)
    (hp : fileExists pers = false) :
    try_on fileExists readFile img_ok response pers prod out sc bs aw pg ss seed mt cq =
      { result := Except.error (TryOnError.fileNotFound ("人物画像が見つかりません: " ++ pers))
        events := [] } := by
  simp only [try_on, hp, if_true]

theorem try_on_missing_product (fileExists : String → Bool) (readFile : String → List Nat)
    (img_ok : List Nat → Bool) (response : HttpResponse)
    (pers prod out : String) (sc bs : Int) (aw : Bool) (pg ss : String)
    (seed : Option Int) (mt : String) (cq : Option Int)
    (hp : fileExists pers = true) (hq : fileExists prod = false) :
    try_on fileExists readFile img_ok response pers prod out sc bs aw pg ss seed mt cq =
      { result := Except.error (TryOnError.fileNotFound ("商品画像が見つかりません: " ++ prod))
        events := [] } := by
  simp only [try_on, hp, hq, if_true]
  simp

theorem try_on_non200 (fileExists : String → Bool) (readFile : String → List Nat)
    (img_ok : List Nat → Bool) (response : HttpResponse)
    (pers prod out : String) (sc bs : Int) (aw : Bool) (pg ss : String)
    (seed : Option Int) (mt : String) (cq : Option Int)
    (hp : fileExists pers = true) (hq : fileExists prod = true)
    (hs : response.status_code ≠ 200) :
    try_on fileExists readFile img_ok response pers prod out sc bs aw pg ss seed mt cq =
      { result := Except.error (TryOnError.apiError response.status_code response.text)
        events := [Event.post (buildRequestBody (encode_image readFile pers)
          (encode_image readFile prod) sc bs aw pg ss seed mt cq)] } := by
  simp only [try_on, hp, hq, hs, if_true]
  simp [hs]

theorem try_on_200 (fileExists : String → Bool) (readFile : String → List Nat)
    (img_ok : List Nat → Bool) (response : HttpResponse)
    (pers prod out : String) (sc bs : Int) (aw : Bool) (pg ss : String)
    (seed : Option Int) (mt : String) (cq : Option Int)
    (hp : fileExists pers = true) (hq : fileExists prod = true)
    (hs : response.status_code = 200) :
    try_on fileExists readFile img_ok response pers prod out sc bs aw pg ss seed mt cq =
      { result := (saveImages img_ok out pers prod 0 (response.predictions.getD [])).1
        events := Event.post (buildRequestBody (encode_image readFile pers)
            (encode_image readFile prod) sc bs aw pg ss seed mt cq) ::
          Event.makedirs out ::
          (saveImages img_ok out pers prod 0 (response.predictions.getD [])).2 } := by
  simp only [try_on, hp, hq, hs]
  simp

/-! ### Posted-body lemmas -/

theorem postedBodies_saveImages (img_ok : List Nat → Bool) (d p1 p2 : String) :
    ∀ i preds, postedBodies (saveImages img_ok d p1 p2 i preds).2 = []
  | _, [] => rfl
  | i, p :: rest => by
    have ih := postedBodies_saveImages img_ok d p1 p2 (i + 1) rest
    simp only [saveImages]
    cases hok : img_ok (b64decode p.bytesBase64Encoded.toList) with
    | false => simp [postedBodies]
    | true =>
      simp only [if_true]
      rcases hmatch : saveImages img_ok d p1 p2 (i + 1) rest with ⟨res, evs⟩
      rw [hmatch] at ih
      cases res <;> simpa [postedBodies, List.filterMap_cons] using ih

theorem postedBodies_try_on (fileExists : String → Bool) (readFile : String → List Nat)
    (img_ok : List Nat → Bool) (response : HttpResponse)
    (pers prod out : String) (sc bs : Int) (aw : Bool) (pg ss : String)
    (seed : Option Int) (mt : String) (cq : Option Int)
    (hp : fileExists pers = true) (hq : fileExists prod = true) :
    postedBodies (try_on fileExists readFile img_ok response pers prod out
        sc bs aw pg ss seed mt cq).events =
      [buildRequestBody (encode_image readFile pers) (encode_image readFile prod)
        sc bs aw pg ss seed mt cq] := by
  by_cases hs : response.status_code = 200
  · rw [try_on_200 fileExists readFile img_ok response pers prod out sc bs aw pg ss seed mt cq hp hq hs]
    simp [postedBodies, List.filterMap_cons]
    have := postedBodies_saveImages img_ok out pers prod 0 (response.predictions.getD [])
    simpa [postedBodies] using this
  · rw [try_on_non200 fileExists readFile img_ok response pers prod out sc bs aw pg ss seed mt cq hp hq hs]
    simp [postedBodies, List.filterMap_cons]

theorem posted_body_characterization (fileExists : String → Bool) (readFile : String → List Nat)
    (img_ok : List Nat → Bool) (response : HttpResponse)
    (pers prod out : String) (sc bs : Int) (aw : Bool) (pg ss : String)
    (seed : Option Int) (mt : String) (cq : Option Int) :
    ∀ b ∈ postedBodies (try_on fileExists readFile img_ok response pers prod out
        sc bs aw pg ss seed mt cq).events,
      b = buildRequestBody (encode_image readFile pers) (encode_image readFile prod)
        sc bs aw pg ss seed mt cq := by
  intro b hb
  cases hpe : fileExists pers with
  | false =>
    rw [try_on_missing_person fileExists readFile img_ok response pers prod out sc bs aw pg ss seed mt cq hpe] at hb
    simp [postedBodies] at hb
  | true =>
    cases hqe : fileExists prod with
    | false =>
      rw [try_on_missing_product fileExists readFile img_ok response pers prod out sc bs aw pg ss seed mt cq hpe hqe] at hb
      simp [postedBodies] at hb
    | true =>
      rw [postedBodies_try_on fileExists readFile img_ok response pers prod out sc bs aw pg ss seed mt cq hpe hqe] at hb
      simpa using hb

/-! ### Claim theorems -/

/-- Claim C7: base64-encoding a file's bytes, as the request-building helper
`encode_image` does, and then base64-decoding the resulting text yields the
original byte sequence. -/
theorem encode_image_roundtrip (readFile : String → List Nat) (path : String)
    (h : ∀ b ∈ readFile path, b < 256) :
    b64decode (encode_image readFile path).toList = readFile path := by
  have hmk : (encode_image readFile path).toList = b64encode (readFile path) := rfl
  rw [hmk]
  exact b64_roundtrip (readFile path) h

theorem encode_image_roundtrip_witness :
    (∀ b ∈ [0, 127, 128, 255, 10], b < 256) ∧
    b64decode (encode_image (fun _ => [0, 127, 128, 255, 10]) "img.png").toList
      = [0, 127, 128, 255, 10] :=
  ⟨by decide,
   encode_image_roundtrip (fun _ => [0, 127, 128, 255, 10]) "img.png" (by decide)⟩

/-- Claim C2: if either input path is missing, `try_on` raises
`FileNotFoundError` naming the missing path (the person image is checked
first), and no side effect — in particular no network request — occurs. -/
theorem try_on_missing_input (fileExists : String → Bool) (readFile : String → List Nat)
    (img_ok : List Nat → Bool) (response : HttpResponse)
    (pers prod out : String) (sc bs : Int) (aw : Bool) (pg ss : String)
    (seed : Option Int) (mt : String) (cq : Option Int)
    (h : fileExists pers = false ∨ fileExists prod = false) :
    (try_on fileExists readFile img_ok response pers prod out sc bs aw pg ss seed mt cq).events
        = [] ∧
    ((fileExists pers = false ∧
        (try_on fileExists readFile img_ok response pers prod out sc bs aw pg ss seed mt cq).result
          = Except.error (TryOnError.fileNotFound ("人物画像が見つかりません: " ++ pers))) ∨
     (fileExists pers = true ∧ fileExists prod = false ∧
        (try_on fileExists readFile img_ok response pers prod out sc bs aw pg ss seed mt cq).result
          = Except.error (TryOnError.fileNotFound ("商品画像が見つかりません: " ++ prod)))) := by
  cases hpe : fileExists pers with
  | false =>
    rw [try_on_missing_person fileExists readFile img_ok response pers prod out sc bs aw pg ss seed mt cq hpe]
    exact ⟨rfl, Or.inl ⟨rfl, rfl⟩⟩
  | true =>
    have hqe : fileExists prod = false := by
      rcases h with h1 | h1
      · rw [hpe] at h1; cases h1
      · exact h1
    rw [try_on_missing_product fileExists readFile img_ok response pers prod out sc bs aw pg ss seed mt cq hpe hqe]
    exact ⟨rfl, Or.inr ⟨rfl, hqe, rfl⟩⟩

theorem try_on_missing_input_witness :
    (try_on (fun _ => false) (fun _ => []) (fun _ => true)
        { status_code := 200, text := "", predictions := some [] }
        "./images/person.png" "./images/dress.png" "./output"
        1 32 false "allow_all" "block_only_high" none "image/png" none).events = [] ∧
    (try_on (fun _ => false) (fun _ => []) (fun _ => true)
        { status_code := 200, text := "", predictions := some [] }
        "./images/person.png" "./images/dress.png" "./output"
        1 32 false "allow_all" "block_only_high" none "image/png" none).result
      = Except.error (TryOnError.fileNotFound
          ("人物画像が見つかりません: " ++ "./images/person.png")) := by
  have h := try_on_missing_input (fun _ => false) (fun _ => []) (fun _ => true)
    { status_code := 200, text := "", predictions := some [] }
    "./images/person.png" "./images/dress.png" "./output"
    1 32 false "allow_all" "block_only_high" none "image/png" none (Or.inl rfl)
  rcases h with ⟨hev, hcase | hcase⟩
  · exact ⟨hev, hcase.2⟩
  · exact absurd hcase.1 (by simp)

/-- Claim C3: on a non-200 response, `try_on` raises an error carrying the
status code and the exact response body text; the only side effect is the
single POST — no file is written, the output directory is not created, and
there is no retry. -/
theorem try_on_api_error (fileExists : String → Bool) (readFile : String → List Nat)
    (img_ok : List Nat → Bool) (response : HttpResponse)
    (pers prod out : String) (sc bs : Int) (aw : Bool) (pg ss : String)
    (seed : Option Int) (mt : String) (cq : Option Int)
    (hp : fileExists pers = true) (hq : fileExists prod = true)
    (hs : response.status_code ≠ 200) :
    (try_on fileExists readFile img_ok response pers prod out sc bs aw pg ss seed mt cq).result
        = Except.error (TryOnError.apiError response.status_code response.text) ∧
    (try_on fileExists readFile img_ok response pers prod out sc bs aw pg ss seed mt cq).events
        = [Event.post (buildRequestBody (encode_image readFile pers)
            (encode_image readFile prod) sc bs aw pg ss seed mt cq)] := by
  rw [try_on_non200 fileExists readFile img_ok response pers prod out sc bs aw pg ss seed mt cq hp hq hs]
  exact ⟨rfl, rfl⟩

theorem try_on_api_error_witness :
    (try_on (fun _ => true) (fun _ => []) (fun _ => true)
        { status_code := 403, text := "\x7b\"error\":\"denied\"\x7d", predictions := none }
        "./images/person.png" "./images/dress.png" "./output"
        1 32 false "allow_all" "block_only_high" none "image/png" none).result
      = Except.error (TryOnError.apiError 403 "\x7b\"error\":\"denied\"\x7d") ∧
    (try_on (fun _ => true) (fun _ => []) (fun _ => true)
        { status_code := 403, text := "\x7b\"error\":\"denied\"\x7d", predictions := none }
        "./images/person.png" "./images/dress.png" "./output"
        1 32 false "allow_all" "block_only_high" none "image/png" none).events
      = [Event.post (buildRequestBody (encode_image (fun _ => []) "./images/person.png")
          (encode_image (fun _ => []) "./images/dress.png")
          1 32 false "allow_all" "block_only_high" none "image/png" none)] :=
  try_on_api_error (fun _ => true) (fun _ => []) (fun _ => true)
    { status_code := 403, text := "\x7b\"error\":\"denied\"\x7d", predictions := none }
    "./images/person.png" "./images/dress.png" "./output"
    1 32 false "allow_all" "block_only_high" none "image/png" none rfl rfl (by decide)

/-- Claim C9: on a 200 response whose JSON body has no `predictions` key,
`try_on` does not fail: it returns the empty path list and writes no output
image file (the missing key is read as an empty predictions list). -/
theorem missing_predictions_key (fileExists : String → Bool) (readFile : String → List Nat)
    (img_ok : List Nat → Bool) (response : HttpResponse)
    (pers prod out : String) (sc bs : Int) (aw : Bool) (pg ss : String)
    (seed : Option Int) (mt : String) (cq : Option Int)
    (hp : fileExists pers = true) (hq : fileExists prod = true)
    (hs : response.status_code = 200) (hnone : response.predictions = none) :
    (try_on fileExists readFile img_ok response pers prod out sc bs aw pg ss seed mt cq).result
        = Except.ok [] ∧
    ∀ path, Event.save path ∉
      (try_on fileExists readFile img_ok response pers prod out sc bs aw pg ss seed mt cq).events := by
  rw [try_on_200 fileExists readFile img_ok response pers prod out sc bs aw pg ss seed mt cq hp hq hs]
  constructor
  · simp [hnone, saveImages]
  · intro path
    simp [hnone, saveImages]

theorem missing_predictions_key_witness :
    (try_on (fun _ => true) (fun _ => []) (fun _ => true)
        { status_code := 200, text := "\x7b\x7d", predictions := none }
        "./images/person.png" "./images/dress.png" "./output"
        1 32 false "allow_all" "block_only_high" none "image/png" none).result
      = Except.ok [] ∧
    ∀ path, Event.save path ∉
      (try_on (fun _ => true) (fun _ => []) (fun _ => true)
        { status_code := 200, text := "\x7b\x7d", predictions := none }
        "./images/person.png" "./images/dress.png" "./output"
        1 32 false "allow_all" "block_only_high" none "image/png" none).events :=
  missing_predictions_key (fun _ => true) (fun _ => []) (fun _ => true)
    { status_code := 200, text := "\x7b\x7d", predictions := none }
    "./images/person.png" "./images/dress.png" "./output"
    1 32 false "allow_all" "block_only_high" none "image/png" none rfl rfl rfl rfl

/-- Claim C4: with `output_mime_type = "image/jpeg"` and
`compression_quality = 85` the posted body's `outputOptions` carries
`compressionQuality = 85`; with `output_mime_type = "image/png"` the posted
body never carries a `compressionQuality` key, whatever the argument. -/
theorem compression_quality_inclusion (fileExists : String → Bool) (readFile : String → List Nat)
    (img_ok : List Nat → Bool) (response : HttpResponse)
    (pers prod out : String) (sc bs : Int) (aw : Bool) (pg ss : String)
    (seed : Option Int)
    (hp : fileExists pers = true) (hq : fileExists prod = true) :
    (∃ b, postedBodies (try_on fileExists readFile img_ok response pers prod out
          sc bs aw pg ss seed "image/jpeg" (some 85)).events = [b] ∧
        b.parameters.outputOptions.compressionQuality = some 85) ∧
    (∀ cq : Option Int, ∃ b, postedBodies (try_on fileExists readFile img_ok response pers prod out
          sc bs aw pg ss seed "image/png" cq).events = [b] ∧
        b.parameters.outputOptions.compressionQuality = none) := by
  constructor
  · exact ⟨_, postedBodies_try_on fileExists readFile img_ok response pers prod out
        sc bs aw pg ss seed "image/jpeg" (some 85) hp hq,
      by simp [buildRequestBody, intTruthy]⟩
  · intro cq
    refine ⟨_, postedBodies_try_on fileExists readFile img_ok response pers prod out
        sc bs aw pg ss seed "image/png" cq hp hq, ?_⟩
    simp [buildRequestBody]

theorem compression_quality_inclusion_witness :
    ∃ b, postedBodies (try_on (fun _ => true) (fun _ => []) (fun _ => true)
          { status_code := 200, text := "", predictions := some [] }
          "./images/person.png" "./images/dress.png" "./output"
          1 32 false "allow_all" "block_only_high" none "image/jpeg" (some 85)).events = [b] ∧
        b.parameters.outputOptions.compressionQuality = some 85 :=
  (compression_quality_inclusion (fun _ => true) (fun _ => []) (fun _ => true)
    { status_code := 200, text := "", predictions := some [] }
    "./images/person.png" "./images/dress.png" "./output"
    1 32 false "allow_all" "block_only_high" none rfl rfl).1

/-- Claim C5: with `seed = None` the posted body has no `seed` key; with any
`seed = s` it carries `seed = s`. -/
theorem seed_inclusion (fileExists : String → Bool) (readFile : String → List Nat)
    (img_ok : List Nat → Bool) (response : HttpResponse)
    (pers prod out : String) (sc bs : Int) (aw : Bool) (pg ss : String)
    (mt : String) (cq : Option Int)
    (hp : fileExists pers = true) (hq : fileExists prod = true) :
    (∃ b, postedBodies (try_on fileExists readFile img_ok response pers prod out
          sc bs aw pg ss none mt cq).events = [b] ∧
        b.parameters.seed = none) ∧
    (∀ s : Int, ∃ b, postedBodies (try_on fileExists readFile img_ok response pers prod out
          sc bs aw pg ss (some s) mt cq).events = [b] ∧
        b.parameters.seed = some s) := by
  constructor
  · exact ⟨_, postedBodies_try_on fileExists readFile img_ok response pers prod out
        sc bs aw pg ss none mt cq hp hq, rfl⟩
  · intro s
    exact ⟨_, postedBodies_try_on fileExists readFile img_ok response pers prod out
        sc bs aw pg ss (some s) mt cq hp hq, rfl⟩

theorem seed_inclusion_witness :
    ∃ b, postedBodies (try_on (fun _ => true) (fun _ => []) (fun _ => true)
          { status_code := 200, text := "", predictions := some [] }
          "./images/person.png" "./images/dress.png" "./output"
          1 32 false "allow_all" "block_only_high" (some 42) "image/png" none).events = [b] ∧
        b.parameters.seed = some 42 :=
  (seed_inclusion (fun _ => true) (fun _ => []) (fun _ => true)
    { status_code := 200, text := "", predictions := some [] }
    "./images/person.png" "./images/dress.png" "./output"
    1 32 false "allow_all" "block_only_high" "image/png" none rfl rfl).2 42

/-- Claim C10: with `output_mime_type = "image/jpeg"` and
`compression_quality = 0` the posted body has no `compressionQuality` key —
inclusion is gated on Python truthiness, not on being non-`None` — while
`seed = 0` in the same call is included as `seed = 0`. -/
theorem compression_quality_truthiness (fileExists : String → Bool) (readFile : String → List Nat)
    (img_ok : List Nat → Bool) (response : HttpResponse)
    (pers prod out : String) (sc bs : Int) (aw : Bool) (pg ss : String)
    (hp : fileExists pers = true) (hq : fileExists prod = true) :
    ∃ b, postedBodies (try_on fileExists readFile img_ok response pers prod out
          sc bs aw pg ss (some 0) "image/jpeg" (some 0)).events = [b] ∧
        b.parameters.outputOptions.compressionQuality = none ∧
        b.parameters.seed = some 0 :=
  ⟨_, postedBodies_try_on fileExists readFile img_ok response pers prod out
      sc bs aw pg ss (some 0) "image/jpeg" (some 0) hp hq,
    by simp [buildRequestBody, intTruthy], rfl⟩

theorem compression_quality_truthiness_witness :
    ∃ b, postedBodies (try_on (fun _ => true) (fun _ => []) (fun _ => true)
          { status_code := 200, text := "", predictions := some [] }
          "./images/person.png" "./images/dress.png" "./output"
          1 32 false "allow_all" "block_only_high" (some 0) "image/jpeg" (some 0)).events = [b] ∧
        b.parameters.outputOptions.compressionQuality = none ∧
        b.parameters.seed = some 0 :=
  compression_quality_truthiness (fun _ => true) (fun _ => []) (fun _ => true)
    { status_code := 200, text := "", predictions := some [] }
    "./images/person.png" "./images/dress.png" "./output"
    1 32 false "allow_all" "block_only_high" rfl rfl

/-- Claim C1: for a 200 response whose predictions list is `preds` (each
entry decoding as an image), `try_on` returns exactly `preds.length` saved
paths; the `j`-th path comes from the `j`-th prediction, is non-empty, and
ends in `.png` when that prediction reports MIME type `image/png` and in
`.jpg` otherwise. -/
theorem try_on_success_path_list (fileExists : String → Bool) (readFile : String → List Nat)
    (img_ok : List Nat → Bool) (response : HttpResponse)
    (pers prod out : String) (sc bs : Int) (aw : Bool) (pg ss : String)
    (seed : Option Int) (mt : String) (cq : Option Int) (preds : List Prediction)
    (hp : fileExists pers = true) (hq : fileExists prod = true)
    (hs : response.status_code = 200)
    (hpreds : response.predictions = some preds)
    (hok : ∀ p ∈ preds, img_ok (b64decode p.bytesBase64Encoded.toList) = true) :
    ∃ paths, (try_on fileExists readFile img_ok response pers prod out
        sc bs aw pg ss seed mt cq).result = Except.ok paths ∧
      paths.length = preds.length ∧
      ∀ j, (hj : j < preds.length) → (hj' : j < paths.length) →
        paths.get ⟨j, hj'⟩ = predPath out pers prod j (preds.get ⟨j, hj⟩) ∧
        (paths.get ⟨j, hj'⟩).data ≠ [] ∧
        (if (preds.get ⟨j, hj⟩).mimeType == some "image/png"
         then String.data ".png" <:+ (paths.get ⟨j, hj'⟩).data
         else String.data ".jpg" <:+ (paths.get ⟨j, hj'⟩).data) := by
  refine ⟨savedPathsFrom out pers prod 0 preds, ?_,
    savedPathsFrom_length out pers prod 0 preds, ?_⟩
  · rw [try_on_200 fileExists readFile img_ok response pers prod out sc bs aw pg ss seed mt cq hp hq hs]
    have hok2 : ∀ p ∈ response.predictions.getD [],
        img_ok (b64decode p.bytesBase64Encoded.toList) = true := by
      rw [hpreds]; exact hok
    rw [saveImages_ok img_ok out pers prod _ hok2 0]
    simp [hpreds]
  · intro j hj hj'
    have hget := savedPathsFrom_get out pers prod preds 0 j hj hj'
    rw [Nat.zero_add] at hget
    refine ⟨hget, ?_, ?_⟩
    · rw [hget]; exact predPath_ne_nil out pers prod j _
    · have hsuf := predExt_suffix out pers prod j (preds.get ⟨j, hj⟩)
      by_cases hm : ((preds.get ⟨j, hj⟩).mimeType == some "image/png") = true
      · have hext : predExt (preds.get ⟨j, hj⟩) = ".png" := by
          unfold predExt; rw [if_pos hm]
        rw [if_pos hm, hget]
        rw [hext] at hsuf
        exact hsuf
      · have hext : predExt (preds.get ⟨j, hj⟩) = ".jpg" := by
          unfold predExt; rw [if_neg hm]
        rw [if_neg hm, hget]
        rw [hext] at hsuf
        exact hsuf

theorem try_on_success_path_list_witness :
    ∃ paths, (try_on (fun _ => true) (fun _ => []) (fun _ => true)
        { status_code := 200, text := "", predictions := some
            [{ bytesBase64Encoded := "", mimeType := some "image/png" },
             { bytesBase64Encoded := "", mimeType := some "image/jpeg" }] }
        "./images/person.png" "./images/dress.png" "./output"
        2 32 false "allow_all" "block_only_high" none "image/png" none).result
          = Except.ok paths ∧
      paths.length = ([{ bytesBase64Encoded := "", mimeType := some "image/png" },
        { bytesBase64Encoded := "", mimeType := some "image/jpeg" }] : List Prediction).length ∧
      ∀ j, (hj : j < ([{ bytesBase64Encoded := "", mimeType := some "image/png" },
          { bytesBase64Encoded := "", mimeType := some "image/jpeg" }] : List Prediction).length) →
        (hj' : j < paths.length) →
        paths.get ⟨j, hj'⟩ = predPath "./output" "./images/person.png" "./images/dress.png" j
          (([{ bytesBase64Encoded := "", mimeType := some "image/png" },
            { bytesBase64Encoded := "", mimeType := some "image/jpeg" }] : List Prediction).get ⟨j, hj⟩) ∧
        (paths.get ⟨j, hj'⟩).data ≠ [] ∧
        (if (([{ bytesBase64Encoded := "", mimeType := some "image/png" },
            { bytesBase64Encoded := "", mimeType := some "image/jpeg" }] : List Prediction).get ⟨j, hj⟩).mimeType
              == some "image/png"
         then String.data ".png" <:+ (paths.get ⟨j, hj'⟩).data
         else String.data ".jpg" <:+ (paths.get ⟨j, hj'⟩).data) :=
  try_on_success_path_list (fun _ => true) (fun _ => []) (fun _ => true)
    { status_code := 200, text := "", predictions := some
        [{ bytesBase64Encoded := "", mimeType := some "image/png" },
         { bytesBase64Encoded := "", mimeType := some "image/jpeg" }] }
    "./images/person.png" "./images/dress.png" "./output"
    2 32 false "allow_all" "block_only_high" none "image/png" none
    [{ bytesBase64Encoded := "", mimeType := some "image/png" },
     { bytesBase64Encoded := "", mimeType := some "image/jpeg" }]
    rfl rfl rfl rfl (by simp)

/-- Claim C6: each saved file is named
`vton_{personStem}_{productStem}_{index}{ext}` under the configured output
directory, where the stems are the input filenames stripped of directory
and extension; in particular person `./images/person.png`, product
`./images/dress.png`, index 0, MIME `image/png` yields
`vton_person_dress_0.png`. -/
theorem output_filename_format (fileExists : String → Bool) (readFile : String → List Nat)
    (img_ok : List Nat → Bool) (response : HttpResponse)
    (pers prod out : String) (sc bs : Int) (aw : Bool) (pg ss : String)
    (seed : Option Int) (mt : String) (cq : Option Int) (preds : List Prediction)
    (hp : fileExists pers = true) (hq : fileExists prod = true)
    (hs : response.status_code = 200)
    (hpreds : response.predictions = some preds)
    (hok : ∀ p ∈ preds, img_ok (b64decode p.bytesBase64Encoded.toList) = true) :
    ∃ paths, (try_on fileExists readFile img_ok response pers prod out
        sc bs aw pg ss seed mt cq).result = Except.ok paths ∧
      ∀ j, (hj : j < preds.length) → (hj' : j < paths.length) →
        paths.get ⟨j, hj'⟩ = pathJoin out
          ("vton_" ++ (pathStem pers ++ "_" ++ pathStem prod) ++ "_" ++ toString j
            ++ predExt (preds.get ⟨j, hj⟩)) := by
  refine ⟨savedPathsFrom out pers prod 0 preds, ?_, ?_⟩
  · rw [try_on_200 fileExists readFile img_ok response pers prod out sc bs aw pg ss seed mt cq hp hq hs]
    have hok2 : ∀ p ∈ response.predictions.getD [],
        img_ok (b64decode p.bytesBase64Encoded.toList) = true := by
      rw [hpreds]; exact hok
    rw [saveImages_ok img_ok out pers prod _ hok2 0]
    simp [hpreds]
  · intro j hj hj'
    have hget := savedPathsFrom_get out pers prod preds 0 j hj hj'
    rw [Nat.zero_add] at hget
    exact hget

theorem output_filename_format_witness :
    (∃ paths, (try_on (fun _ => true) (fun _ => []) (fun _ => true)
        { status_code := 200, text := "", predictions := some
            [{ bytesBase64Encoded := "", mimeType := some "image/png" }] }
        "./images/person.png" "./images/dress.png" "./output"
        1 32 false "allow_all" "block_only_high" none "image/png" none).result
          = Except.ok paths ∧
      ∀ j, (hj : j < ([{ bytesBase64Encoded := "", mimeType := some "image/png" }] : List Prediction).length) →
        (hj' : j < paths.length) →
        paths.get ⟨j, hj'⟩ = pathJoin "./output"
          ("vton_" ++ (pathStem "./images/person.png" ++ "_" ++ pathStem "./images/dress.png")
            ++ "_" ++ toString j
            ++ predExt (([{ bytesBase64Encoded := "", mimeType := some "image/png" }] : List Prediction).get ⟨j, hj⟩))) ∧
    pathJoin "./output"
      ("vton_" ++ (pathStem "./images/person.png" ++ "_" ++ pathStem "./images/dress.png")
        ++ "_" ++ toString 0 ++ ".png") = "output/vton_person_dress_0.png" :=
  ⟨output_filename_format (fun _ => true) (fun _ => []) (fun _ => true)
      { status_code := 200, text := "", predictions := some
          [{ bytesBase64Encoded := "", mimeType := some "image/png" }] }
      "./images/person.png" "./images/dress.png" "./output"
      1 32 false "allow_all" "block_only_high" none "image/png" none
      [{ bytesBase64Encoded := "", mimeType := some "image/png" }]
      rfl rfl rfl rfl (by simp),
    by decide⟩

/-- Claim C8 (amended): the sample count and step count are copied verbatim
into every request the client sends, so they are positive in every sent
request whenever the caller's arguments are positive (as with the defaults
1 and 32); the client itself does not enforce positivity. -/
theorem positivity_preserved (fileExists : String → Bool) (readFile : String → List Nat)
    (img_ok : List Nat → Bool) (response : HttpResponse)
    (pers prod out : String) (sc bs : Int) (aw : Bool) (pg ss : String)
    (seed : Option Int) (mt : String) (cq : Option Int)
    (hsc : 0 < sc) (hbs : 0 < bs) :
    ∀ b ∈ postedBodies (try_on fileExists readFile img_ok response pers prod out
        sc bs aw pg ss seed mt cq).events,
      0 < b.parameters.sampleCount ∧ 0 < b.parameters.baseSteps := by
  intro b hb
  rw [posted_body_characterization fileExists readFile img_ok response pers prod out
    sc bs aw pg ss seed mt cq b hb]
  exact ⟨hsc, hbs⟩

theorem positivity_preserved_witness :
    ((0 : Int) < 1 ∧ (0 : Int) < 32) ∧
    ∀ b ∈ postedBodies (try_on (fun _ => true) (fun _ => []) (fun _ => true)
        { status_code := 200, text := "", predictions := some [] }
        "./images/person.png" "./images/dress.png" "./output"
        1 32 false "allow_all" "block_only_high" none "image/png" none).events,
      0 < b.parameters.sampleCount ∧ 0 < b.parameters.baseSteps :=
  ⟨⟨by decide, by decide⟩,
   positivity_preserved (fun _ => true) (fun _ => []) (fun _ => true)
     { status_code := 200, text := "", predictions := some [] }
     "./images/person.png" "./images/dress.png" "./output"
     1 32 false "allow_all" "block_only_high" none "image/png" none
     (by decide) (by decide)⟩

/-- Claim C8 (counterexample): `try_on` accepts `sample_count = 0` and sends
it unchanged, so the request it posts violates the claimed positivity
invariant. -/
theorem positivity_counterexample :
    ¬ (∀ b ∈ postedBodies (try_on (fun _ => true) (fun _ => []) (fun _ => true)
        { status_code := 200, text := "", predictions := some [] }
        "./images/person.png" "./images/dress.png" "./output"
        0 32 false "allow_all" "block_only_high" none "image/png" none).events,
      0 < b.parameters.sampleCount ∧ 0 < b.parameters.baseSteps) := by
  intro h
  have hmem : buildRequestBody (encode_image (fun _ => []) "./images/person.png")
      (encode_image (fun _ => []) "./images/dress.png")
      0 32 false "allow_all" "block_only_high" none "image/png" none ∈
      postedBodies (try_on (fun _ => true) (fun _ => []) (fun _ => true)
        { status_code := 200, text := "", predictions := some [] }
        "./images/person.png" "./images/dress.png" "./output"
        0 32 false "allow_all" "block_only_high" none "image/png" none).events := by
    rw [postedBodies_try_on (fun _ => true) (fun _ => []) (fun _ => true)
      { status_code := 200, text := "", predictions := some [] }
      "./images/person.png" "./images/dress.png" "./output"
      0 32 false "allow_all" "block_only_high" none "image/png" none rfl rfl]
    exact List.mem_singleton.mpr rfl
  have hb := h _ hmem
  exact absurd hb.1 (by decide)

end VTO
